import Mathlib

/-!
Shallow embedding of `src/Pico_main.py` (plant monitoring and automatic
watering system for a Raspberry Pi Pico W).

Modelling conventions:
- GPIO / PWM state is a record `PinState`; pin writes are functional updates.
- `time.localtime` in MicroPython is `gmtime` on integer epoch seconds, so the
  hour-of-day field `t[3]` of `time.localtime(t)` is `t / 3600 % 24`.
- A step of the Python code that may raise is modelled as `Except σ α` where an
  `error` carries the global state at the moment the exception propagates.
- One iteration of the `while True` loop in `main` (lines 176-199) is the
  function `tick` on `LoopState`; the tick's `time.time()` value and the raw
  soil reading are inputs, and the emitted effects (call to `upload_values`,
  call to `motor_forward`) are returned as flags.
-/

/-- Hour-of-day field `t[3]` of MicroPython `time.localtime t` (gmtime on
epoch seconds): `t / 3600 % 24`. -/
def localtimeHour (t : Nat) : Nat :=
  t / 3600 % 24

/-- Hour field of `get_current_time(timezone_offset)` (line 73-76):
`time.localtime(time.time() + timezone_offset * 3600)[3]`. -/
def get_current_time_hour (t : Nat) (timezone_offset : Nat := 2) : Nat :=
  localtimeHour (t + timezone_offset * 3600)

/-- Hour-of-day of the timestamp built by `channel_update` (line 145-146):
`time.localtime()[3]` at the raw clock `t`, no offset applied. -/
def channel_update_hour (t : Nat) : Nat :=
  localtimeHour t

/-- GPIO / PWM output state of the board: direction pins IN1 (GPIO0) and
IN2 (GPIO1), the ENA PWM duty, and the two sensor heater pins
HEAT_PIN_TEMP (GPIO14) and HEAT_PIN_SOIL (GPIO21). -/
structure PinState where
  in1 : Nat
  in2 : Nat
  duty : Nat
  heatTemp : Nat
  heatSoil : Nat
deriving DecidableEq

/-- All outputs de-energized (power-on reset state). -/
def pinInit : PinState := ⟨0, 0, 0, 0, 0⟩

/-- `motor_forward(speed)` (lines 111-115): IN1=1, IN2=0, ENA duty=speed. -/
def motor_forward (speed : Nat) (p : PinState) : PinState :=
  { p with in1 := 1, in2 := 0, duty := speed }

/-- `motor_stop()` (lines 118-122): duty=0, IN1=0, IN2=0. -/
def motor_stop (p : PinState) : PinState :=
  { p with duty := 0, in1 := 0, in2 := 0 }

/-- The pump actuation sequence of the watering branch (lines 191-193):
`motor_forward(32768); time.sleep(60); motor_stop()`. `faultDuringRun`
models an exception raised during the 60-second `time.sleep(60)`; there is
no `try`/`finally`, so on that path the exception propagates with the pins
as `motor_forward` left them. -/
def wateringActuation (faultDuringRun : Bool) (p : PinState) :
    Except PinState PinState :=
  let p1 := motor_forward 32768 p
  if faultDuringRun then Except.error p1
  else Except.ok (motor_stop p1)

/-- `get_temperature()` (lines 83-93): heater GPIO14 on, settle 1 s,
`DHT_SENSOR.measure()` (which may raise, modelled by `measureFault`), read
temperature and humidity, heater off, return the pair. No `try`/`finally`:
a raise in `measure` propagates with the heater still energized. -/
def get_temperature (measureFault : Bool) (temp hum : Int) (p : PinState) :
    Except PinState (PinState × Int × Int) :=
  let p1 := { p with heatTemp := 1 }
  if measureFault then Except.error p1
  else Except.ok ({ p1 with heatTemp := 0 }, temp, hum)

/-- `get_soil_humidity()` (lines 96-104): heater GPIO21 on, settle 1 s,
`ADC_SOIL.read_u16()` (a raise modelled by `readFault`), heater off, return
the raw value. No `try`/`finally`: a raise propagates with the heater on. -/
def get_soil_humidity (readFault : Bool) (raw : Nat) (p : PinState) :
    Except PinState (PinState × Nat) :=
  let p1 := { p with heatSoil := 1 }
  if readFault then Except.error p1
  else Except.ok ({ p1 with heatSoil := 0 }, raw)

/-- The mutable state of `main`'s loop: the cached `hour` variable (seeded at
line 170, incremented at line 183), `last_upload` (line 173 / 182) and the
`plant_watered` flag (line 174 / 195 / 197). -/
structure LoopState where
  hour : Nat
  last_upload : Int
  plant_watered : Bool
deriving DecidableEq

/-- The upload branch (lines 180-183): if `current_time - last_upload >=
3600` then `upload_values()` is called, `last_upload = current_time`, and
`hour = (hour + 1) % 24`; returns the new state and whether the upload
fired. -/
def uploadStep (s : LoopState) (t : Int) : LoopState × Bool :=
  if 3600 ≤ t - s.last_upload then
    ({ s with last_upload := t, hour := (s.hour + 1) % 24 }, true)
  else (s, false)

/-- The watering branch (lines 186-197) on the hour value it reads, the
`plant_watered` flag and the raw soil reading; returns the new flag and
whether `motor_forward` was invoked. -/
def wateringStep (hour : Nat) (watered : Bool) (soil : Nat) : Bool × Bool :=
  if hour = 8 ∨ hour = 20 then
    if watered then (watered, false)
    else if 16000 < soil then (true, true)
    else (watered, false)
  else (false, false)

/-- Result of one loop iteration: the state at the end of the tick, whether
`upload_values` was called and whether `motor_forward` was called. -/
structure TickResult where
  state : LoopState
  uploaded : Bool
  pumped : Bool
deriving DecidableEq

/-- One iteration of the `while True` loop (lines 176-199), fault-free:
`t` is this tick's `time.time()` and `soil` the raw value a soil read would
return. The upload branch runs first, then the watering branch on the
(possibly incremented) `hour`. -/
def tick (s : LoopState) (t : Int) (soil : Nat) : TickResult :=
  let s1 := (uploadStep s t).1
  let up := (uploadStep s t).2
  let w := (wateringStep s1.hour s1.plant_watered soil).1
  let pumped := (wateringStep s1.hour s1.plant_watered soil).2
  ⟨{ s1 with plant_watered := w }, up, pumped⟩

/-- One iteration of the loop where the soil read of the watering check
(line 188) may raise, modelled by `soilFault`. `main` has no handler, so the
exception propagates out of the `while True` loop and `main` terminates:
the `error` carries the loop state at abort. Only the watering-check read is
modelled as fallible here. -/
def tickE (s : LoopState) (t : Int) (soilFault : Bool) (soil : Nat) :
    Except LoopState TickResult :=
  let s1 := (uploadStep s t).1
  let up := (uploadStep s t).2
  if s1.hour = 8 ∨ s1.hour = 20 then
    if s1.plant_watered then Except.ok ⟨s1, up, false⟩
    else if soilFault then Except.error s1
    else if 16000 < soil then
      Except.ok ⟨{ s1 with plant_watered := true }, up, true⟩
    else Except.ok ⟨s1, up, false⟩
  else Except.ok ⟨{ s1 with plant_watered := false }, up, false⟩

/-- The hour value the watering membership test of a tick consumes: the
cached `hour`, incremented when the upload branch fires. -/
def hourConsumed (s : LoopState) (t : Int) : Nat :=
  if 3600 ≤ t - s.last_upload then (s.hour + 1) % 24 else s.hour

/-- `true` when every tick of the run keeps the consumed hour value inside
the watering window {8, 20} (the hour is unchanged after the upload branch,
so it is the final state's hour). -/
def allInWindowB : LoopState → List (Int × Nat) → Bool
  | _, [] => true
  | s, (t, soil) :: rest =>
    let r := tick s t soil
    ((r.state.hour = 8 || r.state.hour = 20) : Bool) && allInWindowB r.state rest

/-- Number of `motor_forward` invocations over a run of ticks fed by the
list of `(time.time(), soil reading)` inputs. -/
def pumpCount : LoopState → List (Int × Nat) → Nat
  | _, [] => 0
  | s, (t, soil) :: rest =>
    let r := tick s t soil
    (if r.pumped then 1 else 0) + pumpCount r.state rest

/-! Helper lemmas about a single tick. -/

lemma uploadStep_watered (s : LoopState) (t : Int) :
    (uploadStep s t).1.plant_watered = s.plant_watered := by
  by_cases h : 3600 ≤ t - s.last_upload <;> simp [uploadStep, h]

lemma tick_hour (s : LoopState) (t : Int) (soil : Nat) :
    (tick s t soil).state.hour = hourConsumed s t := by
  by_cases h : 3600 ≤ t - s.last_upload <;>
    simp [tick, uploadStep, hourConsumed, h]

lemma tick_watered (s : LoopState) (t : Int) (soil : Nat) :
    (tick s t soil).state.plant_watered =
      (wateringStep (hourConsumed s t) s.plant_watered soil).1 := by
  by_cases h : 3600 ≤ t - s.last_upload <;>
    simp [tick, uploadStep, hourConsumed, h]

lemma tick_pumped (s : LoopState) (t : Int) (soil : Nat) :
    (tick s t soil).pumped =
      (wateringStep (hourConsumed s t) s.plant_watered soil).2 := by
  by_cases h : 3600 ≤ t - s.last_upload <;>
    simp [tick, uploadStep, hourConsumed, h]

lemma wateringStep_watered_true (h : Nat) (soil : Nat) (hh : h = 8 ∨ h = 20) :
    wateringStep h true soil = (true, false) := by
  simp [wateringStep, hh]

lemma wateringStep_pumped_flag (h : Nat) (w : Bool) (soil : Nat) :
    (wateringStep h w soil).2 = true → (wateringStep h w soil).1 = true := by
  cases w <;> by_cases hA : h = 8 ∨ h = 20 <;> by_cases hs : 16000 < soil <;>
    simp [wateringStep, hA, hs]

lemma wateringStep_no_pump_of_wet (h : Nat) (w : Bool) (soil : Nat)
    (hs : soil ≤ 16000) : (wateringStep h w soil).2 = false := by
  have hs' : ¬ 16000 < soil := by omega
  cases w <;> by_cases hA : h = 8 ∨ h = 20 <;> simp [wateringStep, hA, hs']

lemma wateringStep_out (h : Nat) (w : Bool) (soil : Nat)
    (hh : ¬(h = 8 ∨ h = 20)) : wateringStep h w soil = (false, false) := by
  simp [wateringStep, hh]

/-- Once `plant_watered` is true, a run of ticks whose consumed hour stays in
the watering window never invokes `motor_forward` (the flag is never reset
inside the window). -/
lemma pumpCount_watered :
    ∀ (inputs : List (Int × Nat)) (s : LoopState), s.plant_watered = true →
      allInWindowB s inputs = true → pumpCount s inputs = 0 := by
  intro inputs
  induction inputs with
  | nil => intro s _ _; rfl
  | cons p rest ih =>
    obtain ⟨t, soil⟩ := p
    intro s hw hall
    simp only [allInWindowB, Bool.and_eq_true, Bool.or_eq_true,
      decide_eq_true_eq] at hall
    obtain ⟨hwin, hrest⟩ := hall
    rw [tick_hour] at hwin
    have h1 : (tick s t soil).state.plant_watered = true := by
      rw [tick_watered, hw, wateringStep_watered_true _ _ hwin]
    have h2 : (tick s t soil).pumped = false := by
      rw [tick_pumped, hw, wateringStep_watered_true _ _ hwin]
    simp only [pumpCount, h2, if_neg, Bool.false_eq_true, ite_false,
      Nat.zero_add]
    exact ih _ h1 hrest

/-! Claim theorems. -/

/-- Claim C1. The watering actuation (lines 191-193) has no `try`/`finally`:
on the normal path `motor_stop` leaves duty 0 and IN1 = IN2 = 0, but when a
fault is raised during the 60-second run the exception propagates with the
pins exactly as `motor_forward` left them — duty 32768 and IN1 = 1, so the
pump keeps running. Evaluated at both paths from de-energized pins. -/
theorem C1_pump_left_running_on_fault :
    wateringActuation true pinInit = Except.error ⟨1, 0, 32768, 0, 0⟩
  ∧ wateringActuation false pinInit = Except.ok ⟨0, 0, 0, 0, 0⟩ :=
  ⟨rfl, rfl⟩

/-- Claim C2. Over any run of consecutive ticks whose consumed hour value
stays in the watering window {8, 20}, `motor_forward` is invoked at most
once, from any starting loop state. -/
theorem C2_at_most_one_watering_per_window :
    ∀ (inputs : List (Int × Nat)) (s : LoopState),
      allInWindowB s inputs = true → pumpCount s inputs ≤ 1 := by
  intro inputs
  induction inputs with
  | nil => intro s _; exact Nat.zero_le 1
  | cons p rest ih =>
    obtain ⟨t, soil⟩ := p
    intro s hall
    simp only [allInWindowB, Bool.and_eq_true, Bool.or_eq_true,
      decide_eq_true_eq] at hall
    obtain ⟨hwin, hrest⟩ := hall
    by_cases hp : (tick s t soil).pumped = true
    · have hflag : (tick s t soil).state.plant_watered = true := by
        rw [tick_watered]
        rw [tick_pumped] at hp
        exact wateringStep_pumped_flag _ _ _ hp
      have h0 := pumpCount_watered rest (tick s t soil).state hflag hrest
      simp only [pumpCount, hp, ite_true, h0]
      exact Nat.le_refl 1
    · have hb : (tick s t soil).pumped = false := by
        simpa using hp
      have h1 := ih (tick s t soil).state hrest
      simpa only [pumpCount, hb, Bool.false_eq_true, ite_false,
        Nat.zero_add] using h1

/-- Witness for C2 at a concrete three-tick window run with dry soil:
only the first tick pumps. -/
theorem C2_at_most_one_watering_per_window_witness :
    allInWindowB ⟨8, 0, false⟩ [(0, 20000), (30, 20000), (60, 20000)] = true
  ∧ pumpCount ⟨8, 0, false⟩ [(0, 20000), (30, 20000), (60, 20000)] ≤ 1 :=
  ⟨by decide, C2_at_most_one_watering_per_window
    [(0, 20000), (30, 20000), (60, 20000)] ⟨8, 0, false⟩ (by decide)⟩

/-- Claim C3. The watering check's hour is a cached counter incremented once
per upload, not re-derived from the clock, so it drifts: seeding at epoch 0
(`get_current_time` hour 2 with the default offset), a single tick at epoch
7200 (two hours later, one upload) leaves the code's hour at 3 while the
calendar hour from the time source is 4. -/
theorem C3_cached_hour_drifts_from_clock :
    get_current_time_hour 0 2 = 2
  ∧ (tick ⟨2, 0, false⟩ 7200 0).state.hour = 3
  ∧ get_current_time_hour 7200 2 = 4
  ∧ (tick ⟨2, 0, false⟩ 7200 0).state.hour ≠ get_current_time_hour 7200 2 := by
  refine ⟨rfl, by decide, rfl, by decide⟩

/-- Claim C4. In every tick, `upload_values` is called iff
`current_time - last_upload >= 3600`; when it fires `last_upload` becomes
this tick's `current_time`, otherwise `last_upload` is unchanged (the
watering branch never touches it). -/
theorem C4_upload_iff_elapsed_hour (s : LoopState) (t : Int) (soil : Nat) :
    ((tick s t soil).uploaded = true ↔ 3600 ≤ t - s.last_upload)
  ∧ (tick s t soil).state.last_upload =
      (if 3600 ≤ t - s.last_upload then t else s.last_upload) := by
  by_cases h : 3600 ≤ t - s.last_upload <;> simp [tick, uploadStep, h]

/-- Counterexample to claim C5 as stated: with hour 8 throughout, a first
soil reading of 16000 (at the threshold, not dry) does not set the flag, so
the next tick re-reads; a second reading of 20000 runs the pump inside the
same window entry. -/
theorem C5_counterexample_recheck_waters :
    allInWindowB ⟨8, 0, false⟩ [(0, 16000), (30, 20000)] = true
  ∧ (tick ⟨8, 0, false⟩ 0 16000).pumped = false
  ∧ pumpCount ⟨8, 0, false⟩ [(0, 16000), (30, 20000)] = 1 := by
  refine ⟨by decide, by decide, by decide⟩

/-- Claim C5 (amended). A reading at or below 16000 never triggers the pump
at that tick; the engine re-checks on later ticks of the same window, so the
pump stays off over a window entry only when every reading taken during it
is at or below 16000. -/
theorem C5_no_watering_when_all_readings_wet :
    ∀ (inputs : List (Int × Nat)) (s : LoopState),
      (∀ p ∈ inputs, p.2 ≤ 16000) → pumpCount s inputs = 0 := by
  intro inputs
  induction inputs with
  | nil => intro s _; rfl
  | cons p rest ih =>
    obtain ⟨t, soil⟩ := p
    intro s hall
    have hs : soil ≤ 16000 := hall (t, soil) (List.mem_cons_self _ _)
    have hb : (tick s t soil).pumped = false := by
      rw [tick_pumped]
      exact wateringStep_no_pump_of_wet _ _ _ hs
    have h1 := ih (tick s t soil).state fun q hq => hall q (List.mem_cons_of_mem _ hq)
    simpa only [pumpCount, hb, Bool.false_eq_true, ite_false,
      Nat.zero_add] using h1

/-- Witness for the amended C5 at a concrete wet run inside the window. -/
theorem C5_no_watering_when_all_readings_wet_witness :
    (∀ p ∈ [((0 : Int), (12000 : Nat)), (30, 16000)], p.2 ≤ 16000)
  ∧ pumpCount ⟨8, 0, false⟩ [(0, 12000), (30, 16000)] = 0 :=
  ⟨by decide, C5_no_watering_when_all_readings_wet
    [(0, 12000), (30, 16000)] ⟨8, 0, false⟩ (by decide)⟩

/-- Claim C6. A raising soil read during the watering check (line 188) never
actuates the pump in that tick — but `main` has no handler, so instead of
continuing to the next tick the exception propagates out of the `while True`
loop and the loop aborts (the `error` outcome); the same tick without the
fault continues normally. -/
theorem C6_sensor_fault_aborts_loop :
    tickE ⟨8, 0, false⟩ 0 true 17000 = Except.error ⟨8, 0, false⟩
  ∧ tickE ⟨8, 0, false⟩ 0 false 17000 = Except.ok ⟨⟨8, 0, true⟩, false, true⟩ :=
  ⟨rfl, rfl⟩

/-- Claim C7. Neither sensor read has a `try`/`finally`: on the fault path
the corresponding heater pin is left energized (value 1), while on the
normal path it is de-energized. Evaluated on both paths for both sensors. -/
theorem C7_heater_left_energized_on_fault :
    get_temperature true 20 50 pinInit = Except.error ⟨0, 0, 0, 1, 0⟩
  ∧ get_soil_humidity true 17000 pinInit = Except.error ⟨0, 0, 0, 0, 1⟩
  ∧ get_temperature false 20 50 pinInit = Except.ok (⟨0, 0, 0, 0, 0⟩, 20, 50)
  ∧ get_soil_humidity false 17000 pinInit = Except.ok (⟨0, 0, 0, 0, 0⟩, 17000) :=
  ⟨rfl, rfl, rfl, rfl⟩

/-- Counterexample to claim C8 as stated: from hour 7 with an upload due,
the upload branch increments the cached hour to 8, and that same tick's
watering check fires; one second earlier (no upload) the hour stays 7 and
the watering check does not fire. The upload branch therefore does not leave
the hour consumed by the watering check unchanged. -/
theorem C8_counterexample_upload_shifts_hour :
    (tick ⟨7, 0, false⟩ 3600 20000).uploaded = true
  ∧ (tick ⟨7, 0, false⟩ 3600 20000).state.hour = 8
  ∧ (tick ⟨7, 0, false⟩ 3600 20000).pumped = true
  ∧ (tick ⟨7, 0, false⟩ 3599 20000).uploaded = false
  ∧ (tick ⟨7, 0, false⟩ 3599 20000).state.hour = 7
  ∧ (tick ⟨7, 0, false⟩ 3599 20000).pumped = false := by
  refine ⟨by decide, by decide, by decide, by decide, by decide, by decide⟩

/-- Claim C8 (amended). Within a tick the upload branch modifies
`last_upload` and the cached hour but not the watered flag: the watering
check consumes the pre-tick flag, and its outcome depends on the upload
decision only through the consumed hour — two ticks from the same state and
reading whose consumed hours agree have identical watering outcomes. -/
theorem C8_watering_depends_on_upload_only_via_hour (s : LoopState)
    (t t' : Int) (soil : Nat) (h : hourConsumed s t = hourConsumed s t') :
    (tick s t soil).pumped = (tick s t' soil).pumped
  ∧ (tick s t soil).state.plant_watered = (tick s t' soil).state.plant_watered
  ∧ (tick s t soil).state.hour = hourConsumed s t := by
  rw [tick_pumped, tick_pumped, tick_watered, tick_watered, tick_hour, h]
  exact ⟨rfl, rfl, rfl⟩

/-- Witness for the amended C8 at concrete inputs with equal consumed
hours. -/
theorem C8_watering_depends_on_upload_only_via_hour_witness :
    hourConsumed ⟨8, 100, false⟩ 0 = hourConsumed ⟨8, 100, false⟩ 100
  ∧ ((tick ⟨8, 100, false⟩ 0 20000).pumped
        = (tick ⟨8, 100, false⟩ 100 20000).pumped
    ∧ (tick ⟨8, 100, false⟩ 0 20000).state.plant_watered
        = (tick ⟨8, 100, false⟩ 100 20000).state.plant_watered
    ∧ (tick ⟨8, 100, false⟩ 0 20000).state.hour = hourConsumed ⟨8, 100, false⟩ 0) :=
  ⟨by decide, C8_watering_depends_on_upload_only_via_hour
    ⟨8, 100, false⟩ 0 100 20000 (by decide)⟩

/-- Claim C9. Whenever the hour value consumed by a tick (equal to the final
state's hour) is outside {8, 20}, the `plant_watered` flag is false at the
end of that tick. -/
theorem C9_flag_reset_outside_window (s : LoopState) (t : Int) (soil : Nat)
    (h8 : (tick s t soil).state.hour ≠ 8)
    (h20 : (tick s t soil).state.hour ≠ 20) :
    (tick s t soil).state.plant_watered = false := by
  rw [tick_hour] at h8 h20
  rw [tick_watered, wateringStep_out _ _ _ (by tauto)]

/-- Witness for C9 at a concrete out-of-window tick that starts with the
flag set. -/
theorem C9_flag_reset_outside_window_witness :
    (tick ⟨5, 100, true⟩ 0 17000).state.hour ≠ 8
  ∧ (tick ⟨5, 100, true⟩ 0 17000).state.hour ≠ 20
  ∧ (tick ⟨5, 100, true⟩ 0 17000).state.plant_watered = false :=
  ⟨by decide, by decide,
    C9_flag_reset_outside_window ⟨5, 100, true⟩ 0 17000 (by decide) (by decide)⟩

/-- Claim C10. For any instant `t` and offset, the hour of the timestamp
`channel_update` builds (raw `time.localtime()`, no offset) and the hour
`get_current_time` yields (offset applied, default 2) differ by exactly the
timezone offset modulo 24. -/
theorem C10_status_hour_offset_from_schedule_hour (t k : Nat) :
    get_current_time_hour t k = (channel_update_hour t + k) % 24 := by
  unfold get_current_time_hour channel_update_hour localtimeHour
  rw [Nat.add_mul_div_right _ _ (by norm_num : (0 : Nat) < 3600)]
  omega
